import Mathlib

/-!
Shallow embedding of the ChargeCar slot-reservation API
(source: `src/unnamed/part_002`, the complete rewrite of the server;
`src/api/index.js` is an earlier rewrite of the same routes).

The mutable database holds the `vaga` (slot) table and the `veiculo`
(vehicle) table.  Each route handler is embedded as a function from the
database and the request parameters to an outcome together with the
database after the handler ran.  Sequelize query semantics are modelled
on lists: `findOne`/`findByPk` are `List.find?`, `update`/`save` are
`List.map` keyed on the row id.
-/

namespace ChargeCar

/-- A row of the `vaga` table: `nome`, `ocupada` (default `false`) and the
nullable `placa` column, plus the auto-increment primary key `id`. -/
structure Vaga where
  id : Nat
  nome : String
  ocupada : Bool
  placa : Option String
  deriving DecidableEq, Repr

/-- A row of the `veiculo` table, restricted to the columns the slot
routes read: the unique `placa` and the owner foreign key `user_id`. -/
structure Veiculo where
  placa : String
  user_id : Nat
  deriving DecidableEq, Repr

/-- The persistent state the slot routes touch: the two tables. -/
structure DB where
  vagas : List Vaga
  veiculos : List Veiculo
  deriving DecidableEq, Repr

/-- The business-logic failures of the reserve/release routes, as error
kinds (part_002 lines 205-244); `validationError` is the
express-validator 400 on a malformed plate and `userIdMissing` the 500
returned when the token carries a falsy user id (line 205-207). -/
inductive ApiError where
  | validationError
  | userIdMissing
  | vehicleNotFound
  | ownershipConflict
  | plateAlreadyElsewhere
  | slotNotFound
  | slotOccupied
  | alreadyReservedBySelf
  | alreadyFree
  | notAuthorizedToRelease
  deriving DecidableEq, Repr

/-- Result of a reserve/release handler: the success payload is the slot
instance the handler returns in its JSON response. -/
inductive Outcome where
  | ok (vaga : Vaga)
  | err (e : ApiError)
  deriving DecidableEq, Repr

/-- Upper-casing of a string, character by character (the behaviour of
JS `toUpperCase` on the ASCII plates this API handles). -/
def toUpperStr (s : String) : String := ⟨s.data.map Char.toUpper⟩

/-- Removal of leading and trailing whitespace (the behaviour of JS
`trim`). -/
def trimStr (s : String) : String :=
  ⟨((s.data.dropWhile Char.isWhitespace).reverse.dropWhile Char.isWhitespace).reverse⟩

/-- express-validator plate normalisation: `.trim().toUpperCase()`
(part_002 line 196). -/
def normPlaca (s : String) : String := toUpperStr (trimStr s)

/-- `Veiculo.findOne({ where: { placa, user_id: userId } })`
(part_002 line 208). -/
def findVeiculoDoUsuario (db : DB) (placa : String) (userId : Nat) : Option Veiculo :=
  db.veiculos.find? fun v => v.placa == placa && v.user_id == userId

/-- `Veiculo.findOne({ where: { placa } })` (part_002 line 210). -/
def findVeiculoByPlaca (db : DB) (placa : String) : Option Veiculo :=
  db.veiculos.find? fun v => v.placa == placa

/-- `Vaga.findOne({ where: { placa, ocupada: true, id: { [Op.ne]: vagaId } } })`
(part_002 line 214): another slot currently occupied by this plate. -/
def findOutraVagaComMesmaPlaca (db : DB) (placa : String) (vagaId : Nat) : Option Vaga :=
  db.vagas.find? fun v => v.placa == some placa && v.ocupada && v.id != vagaId

/-- `Vaga.findByPk(vagaId)` (part_002 line 218). -/
def findVagaByPk (db : DB) (vagaId : Nat) : Option Vaga :=
  db.vagas.find? fun v => v.id == vagaId

/-- Effect on one row of the `UPDATE vaga SET ocupada = 1, placa = ?
WHERE id = ?` issued by `vagaAlvo.save()` after a reserve. -/
def reservaUpd (vagaId : Nat) (placa : String) (v : Vaga) : Vaga :=
  if v.id == vagaId then { v with ocupada := true, placa := some placa } else v

/-- Effect on one row of the `UPDATE vaga SET ocupada = 0, placa = NULL
WHERE id = ?` issued by `vaga.save()` after a release. -/
def livreUpd (vagaId : Nat) (v : Vaga) : Vaga :=
  if v.id == vagaId then { v with ocupada := false, placa := none } else v

/-- The row update issued by `vagaAlvo.ocupada = true; vagaAlvo.placa = placa;
await vagaAlvo.save()` (part_002 line 224): an unconditional
`UPDATE vaga SET ocupada = 1, placa = ? WHERE id = ?`. -/
def setVagaReservada (db : DB) (vagaId : Nat) (placa : String) : DB :=
  { db with vagas := db.vagas.map (reservaUpd vagaId placa) }

/-- The row update issued by `vaga.ocupada = false; vaga.placa = null;
await vaga.save()` (part_002 line 245). -/
def setVagaLivre (db : DB) (vagaId : Nat) : DB :=
  { db with vagas := db.vagas.map (livreUpd vagaId) }

/-- Handler of `POST /api/vagas/:id/reservar` (part_002 lines 195-230).
The validation chain runs in source order: plate validation, falsy
user-id guard, ownership (with the two-way split between a plate owned
by another user and an unregistered plate), global plate conflict,
slot existence, slot occupancy (same plate vs other plate), and only
then the unconditional save. -/
def reservar (db : DB) (userId : Nat) (rawPlaca : String) (vagaId : Nat) : Outcome × DB :=
  let placa := normPlaca rawPlaca
  if placa.length != 7 then (.err .validationError, db)
  else if userId == 0 then (.err .userIdMissing, db)
  else
    match findVeiculoDoUsuario db placa userId with
    | none =>
      match findVeiculoByPlaca db placa with
      | some _ => (.err .ownershipConflict, db)
      | none => (.err .vehicleNotFound, db)
    | some _ =>
      match findOutraVagaComMesmaPlaca db placa vagaId with
      | some _ => (.err .plateAlreadyElsewhere, db)
      | none =>
        match findVagaByPk db vagaId with
        | none => (.err .slotNotFound, db)
        | some vagaAlvo =>
          if vagaAlvo.ocupada then
            if vagaAlvo.placa == some placa then (.err .alreadyReservedBySelf, db)
            else (.err .slotOccupied, db)
          else
            (.ok { vagaAlvo with ocupada := true, placa := some placa },
             setVagaReservada db vagaId placa)

/-- The ownership guard of the release handler (part_002 lines 239-244):
`if (vaga.placa) { ... }` runs the `Veiculo.findOne` lookup only under
JS truthiness of the column (skipped when it is NULL or the empty
string), and fails when the lookup comes back empty. -/
def liberarAuthFail (db : DB) (userId : Nat) (vaga : Vaga) : Bool :=
  match vaga.placa with
  | none => false
  | some p => if p == "" then false else (findVeiculoDoUsuario db p userId).isNone

/-- Handler of `POST /api/vagas/:id/liberar` (part_002 lines 232-251). -/
def liberar (db : DB) (userId : Nat) (vagaId : Nat) : Outcome × DB :=
  match findVagaByPk db vagaId with
  | none => (.err .slotNotFound, db)
  | some vaga =>
    if vaga.ocupada = false then (.err .alreadyFree, db)
    else if liberarAuthFail db userId vaga then (.err .notAuthorizedToRelease, db)
    else (.ok { vaga with ocupada := false, placa := none }, setVagaLivre db vagaId)

/-- Handler of `POST /api/vagas/reset-para-apresentacao-agora`
(part_002 lines 253-262): `Vaga.update({ ocupada: false, placa: null },
{ where: {} })`. -/
def resetVagas (db : DB) : DB :=
  { db with vagas := db.vagas.map fun v => { v with ocupada := false, placa := none } }

/-- The 15 rows built by `Array.from({ length: 15 },
(_, i) => ({ nome: `Vaga ${i + 1}` }))` (part_002 line 279), with the
column defaults `ocupada = false`, `placa = NULL` and auto-increment
ids starting at 1. -/
def initialVagas : List Vaga :=
  (List.range 15).map fun i =>
    { id := i + 1, nome := "Vaga " ++ toString (i + 1), ocupada := false, placa := none }

/-- `createInitialVagas` (part_002 lines 275-288): provision the 15
initial slots only when `Vaga.count()` returns 0. -/
def createInitialVagas (db : DB) : DB :=
  if db.vagas.length == 0 then { db with vagas := initialVagas } else db

/-- One engine operation on the slot table, as named by the spec. -/
inductive Op where
  | reserve (userId : Nat) (placa : String) (vagaId : Nat)
  | release (userId : Nat) (vagaId : Nat)
  | provision
  | reset
  deriving DecidableEq, Repr

/-- The state reached after one operation (responses discarded). -/
def applyOp (db : DB) : Op → DB
  | .reserve u p id => (reservar db u p id).2
  | .release u id => (liberar db u id).2
  | .provision => createInitialVagas db
  | .reset => resetVagas db

/-- The state reached after a sequence of operations. -/
def run (db : DB) (ops : List Op) : DB := ops.foldl applyOp db

/-- The state of a fresh deployment: an empty slot table over an
arbitrary vehicle registry. -/
def initDB (veiculos : List Veiculo) : DB := { vagas := [], veiculos := veiculos }

/-! ## Invariants of the slot table -/

/-- Primary keys of the slot table are pairwise distinct. -/
def NodupIds (db : DB) : Prop := (db.vagas.map Vaga.id).Nodup

/-- Spec §8 first invariant, per slot: `Occupied` carries a non-empty
bound plate and `Free` carries none. -/
def VagaInv (v : Vaga) : Prop :=
  (v.ocupada = true → ∃ p, v.placa = some p ∧ p ≠ "") ∧
  (v.ocupada = false → v.placa = none)

/-- Spec §8 first invariant over the whole table. -/
def SlotsInv (db : DB) : Prop := ∀ v ∈ db.vagas, VagaInv v

/-- Spec §8 second invariant: two occupied slots bearing the same plate
are the same row. -/
def PlacaUnica (db : DB) : Prop :=
  ∀ v1 ∈ db.vagas, ∀ v2 ∈ db.vagas, v1.ocupada = true → v2.ocupada = true →
    ∀ p, v1.placa = some p → v2.placa = some p → v1.id = v2.id

/-- The combined inductive invariant. -/
def Inv (db : DB) : Prop := NodupIds db ∧ SlotsInv db ∧ PlacaUnica db

/-! ## Interleaved execution of two concurrent reserve requests

Each `await`ed database call of a handler is a single atomic operation
on the store; between two such calls the Node event loop may run any
other handler (spec §5).  `reservarRace` is the interleaving of two
reserve requests for the same slot in which both handlers perform all
their reads — and hence take their validation decisions — against the
same snapshot `db0`, before either `save()` lands; request A's
unconditional `UPDATE ... WHERE id = ?` is then applied first and
request B's second.  Each request's response is exactly what the
sequential handler computes from the state it read. -/

/-- Read-read-write-write interleaving of two reserve requests for slot
`vagaId`: returns A's response, B's response, and the final table
state. -/
def reservarRace (db0 : DB) (u1 : Nat) (p1 : String) (u2 : Nat) (p2 : String)
    (vagaId : Nat) : Outcome × Outcome × DB :=
  let a := reservar db0 u1 p1 vagaId
  let b := reservar db0 u2 p2 vagaId
  let dbFinal :=
    match b.1 with
    | .ok _ => setVagaReservada a.2 vagaId (normPlaca p2)
    | .err _ => a.2
  (a.1, b.1, dbFinal)

/-! ## Characterisations of the Sequelize finders -/

theorem findVeiculoDoUsuario_isSome_iff {db : DB} {q : String} {u : Nat} :
    (findVeiculoDoUsuario db q u).isSome ↔ ∃ ve ∈ db.veiculos, ve.placa = q ∧ ve.user_id = u := by
  simp [findVeiculoDoUsuario, List.find?_isSome]

theorem findVeiculoByPlaca_eq_none_iff {db : DB} {q : String} :
    findVeiculoByPlaca db q = none ↔ ∀ ve ∈ db.veiculos, ve.placa ≠ q := by
  simp [findVeiculoByPlaca, List.find?_eq_none]

theorem findVeiculoByPlaca_isSome_iff {db : DB} {q : String} :
    (findVeiculoByPlaca db q).isSome ↔ ∃ ve ∈ db.veiculos, ve.placa = q := by
  simp [findVeiculoByPlaca, List.find?_isSome]

theorem findOutra_isSome_iff {db : DB} {q : String} {vagaId : Nat} :
    (findOutraVagaComMesmaPlaca db q vagaId).isSome ↔
      ∃ v ∈ db.vagas, v.placa = some q ∧ v.ocupada = true ∧ v.id ≠ vagaId := by
  simp [findOutraVagaComMesmaPlaca, List.find?_isSome]
  tauto

theorem findOutra_eq_none_iff {db : DB} {q : String} {vagaId : Nat} :
    findOutraVagaComMesmaPlaca db q vagaId = none ↔
      ∀ v ∈ db.vagas, v.placa = some q → v.ocupada = true → v.id = vagaId := by
  simp [findOutraVagaComMesmaPlaca, List.find?_eq_none]

theorem findVagaByPk_eq_none_iff {db : DB} {vagaId : Nat} :
    findVagaByPk db vagaId = none ↔ ∀ v ∈ db.vagas, v.id ≠ vagaId := by
  simp [findVagaByPk, List.find?_eq_none]

/-- List-level form: in a list of rows with pairwise-distinct keys,
searching for a member's key finds exactly that member. -/
theorem find?_id_of_nodup {l : List Vaga} (hnd : (l.map Vaga.id).Nodup) {v : Vaga}
    (hv : v ∈ l) : l.find? (fun w => w.id == v.id) = some v := by
  induction l with
  | nil => cases hv
  | cons a t ih =>
    rw [List.map_cons, List.nodup_cons] at hnd
    rcases List.mem_cons.mp hv with rfl | hvt
    · simp [List.find?_cons]
    · rw [List.find?_cons]
      have hne : (a.id == v.id) = false := by
        apply beq_eq_false_iff_ne.mpr
        intro he
        exact hnd.1 (he ▸ List.mem_map_of_mem Vaga.id hvt)
      rw [hne]
      exact ih hnd.2 hvt

/-- With pairwise-distinct primary keys, `findByPk` returns exactly the
member row bearing the key. -/
theorem findVagaByPk_eq_of_mem {db : DB} (hnd : NodupIds db) {v : Vaga}
    (hv : v ∈ db.vagas) : findVagaByPk db v.id = some v :=
  find?_id_of_nodup hnd hv

/-- A member of the found row's table found by `findByPk`. -/
theorem mem_of_findVagaByPk {db : DB} {vagaId : Nat} {v : Vaga}
    (h : findVagaByPk db vagaId = some v) : v ∈ db.vagas ∧ v.id = vagaId := by
  unfold findVagaByPk at h
  refine ⟨List.mem_of_find?_eq_some h, ?_⟩
  have := List.find?_some h
  simpa using this

/-- Updates keyed on the row id leave the key column unchanged, hence
preserve `NodupIds`. -/
theorem nodupIds_map_of_id_eq {db : DB} (f : Vaga → Vaga) (hf : ∀ v, (f v).id = v.id)
    (h : NodupIds db) : ((db.vagas.map f).map Vaga.id).Nodup := by
  rw [List.map_map]
  have : db.vagas.map (Vaga.id ∘ f) = db.vagas.map Vaga.id :=
    List.map_congr_left fun v _ => hf v
  rw [this]
  exact h

theorem reservaUpd_id (vagaId : Nat) (q : String) (v : Vaga) :
    (reservaUpd vagaId q v).id = v.id := by
  unfold reservaUpd; split <;> rfl

theorem livreUpd_id (vagaId : Nat) (v : Vaga) : (livreUpd vagaId v).id = v.id := by
  unfold livreUpd; split <;> rfl

/-! ## Shape of the handlers' state effect -/

/-- The reserve handler either leaves the database untouched or commits
the save, and in the latter case the plate passed validation, no other
slot held this plate, and the target slot was found free. -/
theorem reservar_snd_cases (db : DB) (u : Nat) (p : String) (vagaId : Nat) :
    (reservar db u p vagaId).2 = db ∨
    ((normPlaca p).length = 7 ∧
     findOutraVagaComMesmaPlaca db (normPlaca p) vagaId = none ∧
     ∃ va, findVagaByPk db vagaId = some va ∧ va.ocupada = false ∧
       (reservar db u p vagaId).1 = .ok { va with ocupada := true, placa := some (normPlaca p) } ∧
       (reservar db u p vagaId).2 = setVagaReservada db vagaId (normPlaca p)) := by
  unfold reservar
  dsimp only
  split
  · exact Or.inl rfl
  · next h7 =>
    split
    · exact Or.inl rfl
    · cases hfu : findVeiculoDoUsuario db (normPlaca p) u with
      | none =>
        cases hfp : findVeiculoByPlaca db (normPlaca p) with
        | none => exact Or.inl rfl
        | some _ => exact Or.inl rfl
      | some _ =>
        dsimp only
        cases hout : findOutraVagaComMesmaPlaca db (normPlaca p) vagaId with
        | some _ => exact Or.inl rfl
        | none =>
          dsimp only
          cases hpk : findVagaByPk db vagaId with
          | none => exact Or.inl rfl
          | some va =>
            dsimp only
            by_cases hocc : va.ocupada = true
            · rw [if_pos hocc]
              split <;> exact Or.inl rfl
            · rw [if_neg hocc]
              refine Or.inr ⟨by simpa using h7, rfl, va, rfl, by simpa using hocc, rfl, rfl⟩

/-- The release handler either leaves the database untouched or commits
the save, and in the latter case the target slot was found occupied. -/
theorem liberar_snd_cases (db : DB) (u : Nat) (vagaId : Nat) :
    (liberar db u vagaId).2 = db ∨
    (∃ va, findVagaByPk db vagaId = some va ∧ va.ocupada = true ∧
      (liberar db u vagaId).1 = .ok { va with ocupada := false, placa := none } ∧
      (liberar db u vagaId).2 = setVagaLivre db vagaId) := by
  unfold liberar
  cases hpk : findVagaByPk db vagaId with
  | none => exact Or.inl rfl
  | some va =>
    dsimp only
    by_cases hocc : va.ocupada = false
    · rw [if_pos hocc]
      exact Or.inl rfl
    · rw [if_neg hocc]
      split
      · exact Or.inl rfl
      · exact Or.inr ⟨va, rfl, by simpa using hocc, rfl, rfl⟩

/-- A reserve that reports an error commits nothing. -/
theorem reservar_err_snd {db : DB} {u : Nat} {p : String} {vagaId : Nat} {e : ApiError}
    (h : (reservar db u p vagaId).1 = .err e) : (reservar db u p vagaId).2 = db := by
  rcases reservar_snd_cases db u p vagaId with h' | ⟨_, _, va, _, _, hok, _⟩
  · exact h'
  · rw [hok] at h
    cases h

/-- A release that reports an error commits nothing. -/
theorem liberar_err_snd {db : DB} {u : Nat} {vagaId : Nat} {e : ApiError}
    (h : (liberar db u vagaId).1 = .err e) : (liberar db u vagaId).2 = db := by
  rcases liberar_snd_cases db u vagaId with h' | ⟨va, _, _, hok, _⟩
  · exact h'
  · rw [hok] at h
    cases h

/-! ## Preservation of the invariant -/


theorem Inv_setVagaReservada {db : DB} (h : Inv db) {q : String} {vagaId : Nat}
    (h7 : q.length = 7)
    (hout : findOutraVagaComMesmaPlaca db q vagaId = none) :
    Inv (setVagaReservada db vagaId q) := by
  obtain ⟨hnd, hsl, hpu⟩ := h
  have hq : q ≠ "" := by
    intro he
    rw [he] at h7
    simp at h7
  have hother := findOutra_eq_none_iff.mp hout
  refine ⟨nodupIds_map_of_id_eq _ (reservaUpd_id vagaId q) hnd, ?_, ?_⟩
  · intro w hw
    obtain ⟨v, hv, rfl⟩ := List.mem_map.mp hw
    unfold reservaUpd
    split
    · exact ⟨fun _ => ⟨q, rfl, hq⟩, fun hfalse => nomatch hfalse⟩
    · exact hsl v hv
  · intro w1 hw1 w2 hw2 ho1 ho2 p hp1 hp2
    obtain ⟨v1, hv1, rfl⟩ := List.mem_map.mp hw1
    obtain ⟨v2, hv2, rfl⟩ := List.mem_map.mp hw2
    rw [reservaUpd_id, reservaUpd_id]
    unfold reservaUpd at ho1 ho2 hp1 hp2
    by_cases h1 : (v1.id == vagaId) = true <;> by_cases h2 : (v2.id == vagaId) = true
    · exact (beq_iff_eq.mp h1).trans (beq_iff_eq.mp h2).symm
    · rw [if_pos h1] at hp1
      rw [if_neg h2] at ho2 hp2
      have hpq : q = p := Option.some.inj hp1
      have : v2.id = vagaId := hother v2 hv2 (hpq ▸ hp2) ho2
      exact absurd this (by simpa using h2)
    · rw [if_neg h1] at ho1 hp1
      rw [if_pos h2] at hp2
      have hpq : q = p := Option.some.inj hp2
      have : v1.id = vagaId := hother v1 hv1 (hpq ▸ hp1) ho1
      exact absurd this (by simpa using h1)
    · rw [if_neg h1] at ho1 hp1
      rw [if_neg h2] at ho2 hp2
      exact hpu v1 hv1 v2 hv2 ho1 ho2 p hp1 hp2

theorem Inv_setVagaLivre {db : DB} (h : Inv db) (vagaId : Nat) :
    Inv (setVagaLivre db vagaId) := by
  obtain ⟨hnd, hsl, hpu⟩ := h
  refine ⟨nodupIds_map_of_id_eq _ (livreUpd_id vagaId) hnd, ?_, ?_⟩
  · intro w hw
    obtain ⟨v, hv, rfl⟩ := List.mem_map.mp hw
    unfold livreUpd
    split
    · exact ⟨fun htrue => (nomatch htrue), fun _ => rfl⟩
    · exact hsl v hv
  · intro w1 hw1 w2 hw2 ho1 ho2 p hp1 hp2
    obtain ⟨v1, hv1, rfl⟩ := List.mem_map.mp hw1
    obtain ⟨v2, hv2, rfl⟩ := List.mem_map.mp hw2
    rw [livreUpd_id, livreUpd_id]
    unfold livreUpd at ho1 ho2 hp1 hp2
    by_cases h1 : (v1.id == vagaId) = true <;> by_cases h2 : (v2.id == vagaId) = true
    · exact (beq_iff_eq.mp h1).trans (beq_iff_eq.mp h2).symm
    · rw [if_pos h1] at ho1
      exact nomatch ho1
    · rw [if_pos h2] at ho2
      exact nomatch ho2
    · rw [if_neg h1] at ho1 hp1
      rw [if_neg h2] at ho2 hp2
      exact hpu v1 hv1 v2 hv2 ho1 ho2 p hp1 hp2

theorem Inv_resetVagas {db : DB} (h : Inv db) : Inv (resetVagas db) := by
  obtain ⟨hnd, hsl, hpu⟩ := h
  refine ⟨nodupIds_map_of_id_eq _ (fun v => rfl) hnd, ?_, ?_⟩
  · intro w hw
    obtain ⟨v, hv, rfl⟩ := List.mem_map.mp hw
    exact ⟨fun htrue => (nomatch htrue), fun _ => rfl⟩
  · intro w1 hw1 w2 hw2 ho1 ho2 p hp1 hp2
    obtain ⟨v1, hv1, rfl⟩ := List.mem_map.mp hw1
    exact nomatch ho1

theorem Inv_createInitialVagas {db : DB} (h : Inv db) : Inv (createInitialVagas db) := by
  unfold createInitialVagas
  split
  · have hfree : ∀ v ∈ initialVagas, v.ocupada = false ∧ v.placa = none := by decide
    refine ⟨?_, ?_, ?_⟩
    · show (initialVagas.map Vaga.id).Nodup
      decide
    · intro v hv
      exact ⟨fun htrue => absurd htrue (by simp [(hfree v hv).1]), fun _ => (hfree v hv).2⟩
    · intro v1 hv1 v2 hv2 ho1 ho2 p hp1 hp2
      exact absurd ho1 (by simp [(hfree v1 hv1).1])
  · exact h

theorem Inv_applyOp {db : DB} (h : Inv db) (op : Op) : Inv (applyOp db op) := by
  cases op with
  | reserve u p vagaId =>
    show Inv (reservar db u p vagaId).2
    rcases reservar_snd_cases db u p vagaId with heq | ⟨h7, hout, va, _, _, _, heq⟩ <;>
      rw [heq]
    · exact h
    · exact Inv_setVagaReservada h h7 hout
  | release u vagaId =>
    show Inv (liberar db u vagaId).2
    rcases liberar_snd_cases db u vagaId with heq | ⟨va, _, _, _, heq⟩ <;> rw [heq]
    · exact h
    · exact Inv_setVagaLivre h vagaId
  | provision => exact Inv_createInitialVagas h
  | reset => exact Inv_resetVagas h

theorem Inv_run (ops : List Op) : ∀ {db : DB}, Inv db → Inv (run db ops) := by
  induction ops with
  | nil => exact fun h => h
  | cons op t ih => exact fun h => ih (Inv_applyOp h op)

theorem Inv_initDB (vs : List Veiculo) : Inv (initDB vs) := by
  refine ⟨List.nodup_nil, ?_, ?_⟩
  · intro v hv
    cases hv
  · intro v1 hv1
    cases hv1

/-! ## Branch equations of the handlers -/

theorem reservar_eq_validationError {db : DB} {u : Nat} {p : String} {vagaId : Nat}
    (h7 : (normPlaca p).length ≠ 7) :
    reservar db u p vagaId = (.err .validationError, db) := by
  unfold reservar
  dsimp only
  rw [if_pos (by simpa using h7)]

theorem reservar_eq_userIdMissing {db : DB} {p : String} {vagaId : Nat}
    (h7 : (normPlaca p).length = 7) :
    reservar db 0 p vagaId = (.err .userIdMissing, db) := by
  unfold reservar
  dsimp only
  rw [if_neg (by simp [h7]), if_pos (by simp)]

theorem reservar_eq_vehicleNotFound {db : DB} {u : Nat} {p : String} {vagaId : Nat}
    (h7 : (normPlaca p).length = 7) (hu : u ≠ 0)
    (h1 : findVeiculoDoUsuario db (normPlaca p) u = none)
    (h2 : findVeiculoByPlaca db (normPlaca p) = none) :
    reservar db u p vagaId = (.err .vehicleNotFound, db) := by
  unfold reservar
  dsimp only
  rw [if_neg (by simp [h7]), if_neg (by simp [hu]), h1, h2]

theorem reservar_eq_ownershipConflict {db : DB} {u : Nat} {p : String} {vagaId : Nat}
    (h7 : (normPlaca p).length = 7) (hu : u ≠ 0)
    (h1 : findVeiculoDoUsuario db (normPlaca p) u = none)
    (h2 : (findVeiculoByPlaca db (normPlaca p)).isSome) :
    reservar db u p vagaId = (.err .ownershipConflict, db) := by
  obtain ⟨ve, hve⟩ := Option.isSome_iff_exists.mp h2
  unfold reservar
  dsimp only
  rw [if_neg (by simp [h7]), if_neg (by simp [hu]), h1, hve]

theorem reservar_eq_plateAlreadyElsewhere {db : DB} {u : Nat} {p : String} {vagaId : Nat}
    (h7 : (normPlaca p).length = 7) (hu : u ≠ 0)
    (h1 : (findVeiculoDoUsuario db (normPlaca p) u).isSome)
    (h2 : (findOutraVagaComMesmaPlaca db (normPlaca p) vagaId).isSome) :
    reservar db u p vagaId = (.err .plateAlreadyElsewhere, db) := by
  obtain ⟨ve, hve⟩ := Option.isSome_iff_exists.mp h1
  obtain ⟨w, hw⟩ := Option.isSome_iff_exists.mp h2
  unfold reservar
  dsimp only
  rw [if_neg (by simp [h7]), if_neg (by simp [hu]), hve, hw]

theorem reservar_eq_slotNotFound {db : DB} {u : Nat} {p : String} {vagaId : Nat}
    (h7 : (normPlaca p).length = 7) (hu : u ≠ 0)
    (h1 : (findVeiculoDoUsuario db (normPlaca p) u).isSome)
    (h2 : findOutraVagaComMesmaPlaca db (normPlaca p) vagaId = none)
    (h3 : findVagaByPk db vagaId = none) :
    reservar db u p vagaId = (.err .slotNotFound, db) := by
  obtain ⟨ve, hve⟩ := Option.isSome_iff_exists.mp h1
  unfold reservar
  dsimp only
  rw [if_neg (by simp [h7]), if_neg (by simp [hu]), hve, h2, h3]

theorem reservar_eq_alreadyReservedBySelf {db : DB} {u : Nat} {p : String} {vagaId : Nat}
    {va : Vaga}
    (h7 : (normPlaca p).length = 7) (hu : u ≠ 0)
    (h1 : (findVeiculoDoUsuario db (normPlaca p) u).isSome)
    (h2 : findOutraVagaComMesmaPlaca db (normPlaca p) vagaId = none)
    (h3 : findVagaByPk db vagaId = some va)
    (h4 : va.ocupada = true) (h5 : va.placa = some (normPlaca p)) :
    reservar db u p vagaId = (.err .alreadyReservedBySelf, db) := by
  obtain ⟨ve, hve⟩ := Option.isSome_iff_exists.mp h1
  unfold reservar
  dsimp only
  rw [if_neg (by simp [h7]), if_neg (by simp [hu]), hve, h2, h3]
  dsimp only
  rw [if_pos h4, if_pos (by simp [h5])]

theorem reservar_eq_slotOccupied {db : DB} {u : Nat} {p : String} {vagaId : Nat} {va : Vaga}
    (h7 : (normPlaca p).length = 7) (hu : u ≠ 0)
    (h1 : (findVeiculoDoUsuario db (normPlaca p) u).isSome)
    (h2 : findOutraVagaComMesmaPlaca db (normPlaca p) vagaId = none)
    (h3 : findVagaByPk db vagaId = some va)
    (h4 : va.ocupada = true) (h5 : va.placa ≠ some (normPlaca p)) :
    reservar db u p vagaId = (.err .slotOccupied, db) := by
  obtain ⟨ve, hve⟩ := Option.isSome_iff_exists.mp h1
  unfold reservar
  dsimp only
  rw [if_neg (by simp [h7]), if_neg (by simp [hu]), hve, h2, h3]
  dsimp only
  rw [if_pos h4, if_neg (by simp [h5])]

theorem reservar_eq_success {db : DB} {u : Nat} {p : String} {vagaId : Nat} {va : Vaga}
    (h7 : (normPlaca p).length = 7) (hu : u ≠ 0)
    (h1 : (findVeiculoDoUsuario db (normPlaca p) u).isSome)
    (h2 : findOutraVagaComMesmaPlaca db (normPlaca p) vagaId = none)
    (h3 : findVagaByPk db vagaId = some va)
    (h4 : va.ocupada = false) :
    reservar db u p vagaId =
      (.ok { va with ocupada := true, placa := some (normPlaca p) },
       setVagaReservada db vagaId (normPlaca p)) := by
  obtain ⟨ve, hve⟩ := Option.isSome_iff_exists.mp h1
  unfold reservar
  dsimp only
  rw [if_neg (by simp [h7]), if_neg (by simp [hu]), hve, h2, h3]
  dsimp only
  rw [if_neg (by simp [h4])]

theorem liberar_eq_slotNotFound {db : DB} {u : Nat} {vagaId : Nat}
    (h : findVagaByPk db vagaId = none) :
    liberar db u vagaId = (.err .slotNotFound, db) := by
  unfold liberar
  rw [h]

theorem liberar_eq_alreadyFree {db : DB} {u : Nat} {vagaId : Nat} {va : Vaga}
    (h : findVagaByPk db vagaId = some va) (ho : va.ocupada = false) :
    liberar db u vagaId = (.err .alreadyFree, db) := by
  unfold liberar
  rw [h]
  dsimp only
  rw [if_pos ho]

theorem liberarAuthFail_eq_false_of_none {db : DB} {u : Nat} {va : Vaga}
    (hp : va.placa = none) : liberarAuthFail db u va = false := by
  unfold liberarAuthFail
  rw [hp]

theorem liberarAuthFail_eq_true {db : DB} {u : Nat} {va : Vaga} {q : String}
    (hp : va.placa = some q) (hq : q ≠ "")
    (hn : findVeiculoDoUsuario db q u = none) : liberarAuthFail db u va = true := by
  unfold liberarAuthFail
  rw [hp]
  dsimp only
  rw [if_neg (by simp [hq]), hn]
  rfl

theorem liberarAuthFail_eq_false_of_owned {db : DB} {u : Nat} {va : Vaga} {q : String}
    (hp : va.placa = some q)
    (howned : (findVeiculoDoUsuario db q u).isSome) : liberarAuthFail db u va = false := by
  unfold liberarAuthFail
  rw [hp]
  dsimp only
  by_cases hq : (q == "") = true
  · rw [if_pos hq]
  · rw [if_neg hq]
    obtain ⟨x, hx⟩ := Option.isSome_iff_exists.mp howned
    rw [hx]
    rfl

theorem liberar_eq_notAuthorized {db : DB} {u : Nat} {vagaId : Nat} {va : Vaga} {q : String}
    (h : findVagaByPk db vagaId = some va) (ho : va.ocupada = true)
    (hp : va.placa = some q) (hq : q ≠ "")
    (hn : findVeiculoDoUsuario db q u = none) :
    liberar db u vagaId = (.err .notAuthorizedToRelease, db) := by
  unfold liberar
  rw [h]
  dsimp only
  rw [if_neg (by simp [ho]), if_pos (liberarAuthFail_eq_true hp hq hn)]

theorem liberar_eq_success_noplate {db : DB} {u : Nat} {vagaId : Nat} {va : Vaga}
    (h : findVagaByPk db vagaId = some va) (ho : va.ocupada = true)
    (hp : va.placa = none) :
    liberar db u vagaId =
      (.ok { va with ocupada := false, placa := none }, setVagaLivre db vagaId) := by
  unfold liberar
  rw [h]
  dsimp only
  rw [if_neg (by simp [ho]), if_neg (by simp [liberarAuthFail_eq_false_of_none hp])]

theorem liberar_eq_success_owned {db : DB} {u : Nat} {vagaId : Nat} {va : Vaga} {q : String}
    (h : findVagaByPk db vagaId = some va) (ho : va.ocupada = true)
    (hp : va.placa = some q)
    (howned : (findVeiculoDoUsuario db q u).isSome) :
    liberar db u vagaId =
      (.ok { va with ocupada := false, placa := none }, setVagaLivre db vagaId) := by
  unfold liberar
  rw [h]
  dsimp only
  rw [if_neg (by simp [ho]), if_neg (by simp [liberarAuthFail_eq_false_of_owned hp howned])]


theorem slotsInv_setVagaReservada {db : DB} (hsl : SlotsInv db) {q : String}
    (h7 : q.length = 7) (vagaId : Nat) : SlotsInv (setVagaReservada db vagaId q) := by
  have hq : q ≠ "" := by
    intro he
    rw [he] at h7
    simp at h7
  intro w hw
  obtain ⟨v, hv, rfl⟩ := List.mem_map.mp hw
  unfold reservaUpd
  split
  · exact ⟨fun _ => ⟨q, rfl, hq⟩, fun hfalse => (nomatch hfalse)⟩
  · exact hsl v hv

theorem slotsInv_setVagaLivre {db : DB} (hsl : SlotsInv db) (vagaId : Nat) :
    SlotsInv (setVagaLivre db vagaId) := by
  intro w hw
  obtain ⟨v, hv, rfl⟩ := List.mem_map.mp hw
  unfold livreUpd
  split
  · exact ⟨fun htrue => (nomatch htrue), fun _ => rfl⟩
  · exact hsl v hv

theorem slotsInv_resetVagas (db : DB) : SlotsInv (resetVagas db) := by
  intro w hw
  obtain ⟨v, hv, rfl⟩ := List.mem_map.mp hw
  exact ⟨fun htrue => (nomatch htrue), fun _ => rfl⟩

theorem slotsInv_createInitialVagas {db : DB} (hsl : SlotsInv db) :
    SlotsInv (createInitialVagas db) := by
  unfold createInitialVagas
  split
  · have hfree : ∀ v ∈ initialVagas, v.ocupada = false ∧ v.placa = none := by decide
    intro v hv
    exact ⟨fun htrue => absurd htrue (by simp [(hfree v hv).1]), fun _ => (hfree v hv).2⟩
  · exact hsl

theorem slotsInv_applyOp {db : DB} (hsl : SlotsInv db) (op : Op) :
    SlotsInv (applyOp db op) := by
  cases op with
  | reserve u p vagaId =>
    show SlotsInv (reservar db u p vagaId).2
    rcases reservar_snd_cases db u p vagaId with heq | ⟨h7, _, va, _, _, _, heq⟩ <;> rw [heq]
    · exact hsl
    · exact slotsInv_setVagaReservada hsl h7 vagaId
  | release u vagaId =>
    show SlotsInv (liberar db u vagaId).2
    rcases liberar_snd_cases db u vagaId with heq | ⟨va, _, _, _, heq⟩ <;> rw [heq]
    · exact hsl
    · exact slotsInv_setVagaLivre hsl vagaId
  | provision => exact slotsInv_createInitialVagas hsl
  | reset => exact slotsInv_resetVagas db

theorem filter_occupied_length_le_one {db : DB} (hnd : NodupIds db) (hpu : PlacaUnica db)
    (p : String) :
    (db.vagas.filter fun v => v.ocupada && v.placa == some p).length ≤ 1 := by
  cases hfl : db.vagas.filter (fun v => v.ocupada && v.placa == some p) with
  | nil => simp
  | cons a t =>
    cases t with
    | nil => simp
    | cons b t2 =>
      exfalso
      have hsub : List.Sublist (a :: b :: t2) db.vagas := by
        rw [← hfl]
        exact List.filter_sublist db.vagas
      have hnd2 : ((a :: b :: t2).map Vaga.id).Nodup := (hsub.map Vaga.id).nodup hnd
      have hab : a.id ≠ b.id := by
        rw [List.map_cons, List.map_cons, List.nodup_cons] at hnd2
        intro he
        exact hnd2.1 (he ▸ List.mem_cons_self b.id (t2.map Vaga.id))
      have ha := List.mem_filter.mp (show a ∈ db.vagas.filter _ by
        rw [hfl]; exact List.mem_cons_self a (b :: t2))
      have hb := List.mem_filter.mp (show b ∈ db.vagas.filter _ by
        rw [hfl]; exact List.mem_cons_of_mem a (List.mem_cons_self b t2))
      have ha2 : a.ocupada = true ∧ a.placa = some p := by simpa using ha.2
      have hb2 : b.ocupada = true ∧ b.placa = some p := by simpa using hb.2
      exact hab (hpu a ha.1 b hb.1 ha2.1 hb2.1 p ha2.2 hb2.2)



/-- Shared bridge: absence of an owned-vehicle row as a finder equation. -/
theorem findVeiculoDoUsuario_eq_none_of_not_exists {db : DB} {q : String} {u : Nat}
    (h : ¬ ∃ ve ∈ db.veiculos, ve.placa = q ∧ ve.user_id = u) :
    findVeiculoDoUsuario db q u = none :=
  Option.not_isSome_iff_eq_none.mp fun hs => h (findVeiculoDoUsuario_isSome_iff.mp hs)

/-- C1: the reserve validation chain checks, in this fixed order,
vehicle ownership (splitting into OwnershipConflict vs VehicleNotFound),
then the global plate conflict (PlateAlreadyElsewhere), then slot
existence (SlotNotFound), then slot occupancy (AlreadyReservedBySelf
vs SlotOccupied); the first failing check in this order fixes the
outcome, and no failing check mutates the database. -/
theorem reservar_check_order (db : DB) (u : Nat) (p : String) (vagaId : Nat)
    (h7 : (normPlaca p).length = 7) (hu : u ≠ 0) :
    ((¬ ∃ ve ∈ db.veiculos, ve.placa = normPlaca p ∧ ve.user_id = u) →
      (((∃ ve ∈ db.veiculos, ve.placa = normPlaca p) ∧
          reservar db u p vagaId = (.err .ownershipConflict, db)) ∨
       ((¬ ∃ ve ∈ db.veiculos, ve.placa = normPlaca p) ∧
          reservar db u p vagaId = (.err .vehicleNotFound, db)))) ∧
    ((∃ ve ∈ db.veiculos, ve.placa = normPlaca p ∧ ve.user_id = u) →
     (∃ v ∈ db.vagas, v.placa = some (normPlaca p) ∧ v.ocupada = true ∧ v.id ≠ vagaId) →
      reservar db u p vagaId = (.err .plateAlreadyElsewhere, db)) ∧
    ((∃ ve ∈ db.veiculos, ve.placa = normPlaca p ∧ ve.user_id = u) →
     (∀ v ∈ db.vagas, v.placa = some (normPlaca p) → v.ocupada = true → v.id = vagaId) →
     (∀ v ∈ db.vagas, v.id ≠ vagaId) →
      reservar db u p vagaId = (.err .slotNotFound, db)) ∧
    (∀ va, (∃ ve ∈ db.veiculos, ve.placa = normPlaca p ∧ ve.user_id = u) →
     (∀ v ∈ db.vagas, v.placa = some (normPlaca p) → v.ocupada = true → v.id = vagaId) →
     findVagaByPk db vagaId = some va → va.ocupada = true →
      ((va.placa = some (normPlaca p) ∧
          reservar db u p vagaId = (.err .alreadyReservedBySelf, db)) ∨
       (va.placa ≠ some (normPlaca p) ∧
          reservar db u p vagaId = (.err .slotOccupied, db)))) := by
  refine ⟨?_, ?_, ?_, ?_⟩
  · intro h
    by_cases hex : ∃ ve ∈ db.veiculos, ve.placa = normPlaca p
    · exact Or.inl ⟨hex, reservar_eq_ownershipConflict h7 hu
        (findVeiculoDoUsuario_eq_none_of_not_exists h)
        (findVeiculoByPlaca_isSome_iff.mpr hex)⟩
    · refine Or.inr ⟨hex, reservar_eq_vehicleNotFound h7 hu
        (findVeiculoDoUsuario_eq_none_of_not_exists h) ?_⟩
      rw [findVeiculoByPlaca_eq_none_iff]
      intro ve hve he
      exact hex ⟨ve, hve, he⟩
  · intro hown hconf
    exact reservar_eq_plateAlreadyElsewhere h7 hu
      (findVeiculoDoUsuario_isSome_iff.mpr hown) (findOutra_isSome_iff.mpr hconf)
  · intro hown hnoconf hnoslot
    exact reservar_eq_slotNotFound h7 hu (findVeiculoDoUsuario_isSome_iff.mpr hown)
      (findOutra_eq_none_iff.mpr hnoconf) (findVagaByPk_eq_none_iff.mpr hnoslot)
  · intro va hown hnoconf hpk hocc
    by_cases hpl : va.placa = some (normPlaca p)
    · exact Or.inl ⟨hpl, reservar_eq_alreadyReservedBySelf h7 hu
        (findVeiculoDoUsuario_isSome_iff.mpr hown) (findOutra_eq_none_iff.mpr hnoconf)
        hpk hocc hpl⟩
    · exact Or.inr ⟨hpl, reservar_eq_slotOccupied h7 hu
        (findVeiculoDoUsuario_isSome_iff.mpr hown) (findOutra_eq_none_iff.mpr hnoconf)
        hpk hocc hpl⟩

/-- Witness for C1: reserving slot 7 with a plate that already occupies
slot 5 fails with the plate-conflict error before the occupancy check. -/
theorem reservar_check_order_witness :
    reservar ⟨[⟨5, "Vaga 5", true, some "AAA1111"⟩, ⟨7, "Vaga 7", false, none⟩],
              [⟨"AAA1111", 1⟩]⟩ 1 "AAA1111" 7
      = (.err .plateAlreadyElsewhere,
         ⟨[⟨5, "Vaga 5", true, some "AAA1111"⟩, ⟨7, "Vaga 7", false, none⟩],
          [⟨"AAA1111", 1⟩]⟩) :=
  (reservar_check_order _ 1 "AAA1111" 7 (by decide) (by decide)).2.1
    (by decide) (by decide)


/-- C2: in every state reachable from a fresh deployment by any
sequence of reserve, release, provisioning and reset operations, at
most one slot is occupied with any given plate; and a reserve that
finds its plate already occupying another slot fails with
PlateAlreadyElsewhere and leaves the database unchanged. -/
theorem placa_unica_reachable :
    (∀ vs ops p, ((run (initDB vs) ops).vagas.filter
        (fun v => v.ocupada && v.placa == some p)).length ≤ 1) ∧
    (∀ db u p vagaId, (normPlaca p).length = 7 → u ≠ 0 →
      (∃ ve ∈ db.veiculos, ve.placa = normPlaca p ∧ ve.user_id = u) →
      (∃ v ∈ db.vagas, v.placa = some (normPlaca p) ∧ v.ocupada = true ∧ v.id ≠ vagaId) →
      reservar db u p vagaId = (.err .plateAlreadyElsewhere, db)) := by
  constructor
  · intro vs ops p
    obtain ⟨hnd, _, hpu⟩ := Inv_run ops (Inv_initDB vs)
    exact filter_occupied_length_le_one hnd hpu p
  · intro db u p vagaId h7 hu hown hconf
    exact reservar_eq_plateAlreadyElsewhere h7 hu
      (findVeiculoDoUsuario_isSome_iff.mpr hown) (findOutra_isSome_iff.mpr hconf)

/-- Witness for C2: reserving slot 7 for a plate parked in slot 5 is
rejected without touching the database. -/
theorem placa_unica_reachable_witness :
    reservar ⟨[⟨5, "Vaga 5", true, some "BBB2222"⟩, ⟨7, "Vaga 7", false, none⟩],
              [⟨"BBB2222", 2⟩]⟩ 2 "BBB2222" 7
      = (.err .plateAlreadyElsewhere,
         ⟨[⟨5, "Vaga 5", true, some "BBB2222"⟩, ⟨7, "Vaga 7", false, none⟩],
          [⟨"BBB2222", 2⟩]⟩) :=
  placa_unica_reachable.2 _ 2 "BBB2222" 7 (by decide) (by decide) (by decide) (by decide)

/-- C3: every operation preserves the per-slot invariant that an
occupied slot carries a non-empty bound plate and a free slot carries
none; successful reserves set the flag and plate together and
successful releases and resets clear them together. -/
theorem occupied_iff_plate_preserved (db : DB) (op : Op) (h : SlotsInv db) :
    SlotsInv (applyOp db op) :=
  slotsInv_applyOp h op

/-- Witness for C3: the invariant survives a release on a table holding
one occupied and one free slot. -/
theorem occupied_iff_plate_preserved_witness :
    SlotsInv (applyOp ⟨[⟨1, "Vaga 1", true, some "AAA1111"⟩, ⟨2, "Vaga 2", false, none⟩],
                       [⟨"AAA1111", 1⟩]⟩ (.release 1 1)) :=
  occupied_iff_plate_preserved _ (.release 1 1) (by
    intro v hv
    rcases List.mem_cons.mp hv with rfl | hv
    · exact ⟨fun _ => ⟨"AAA1111", rfl, by decide⟩, fun hf => (nomatch hf)⟩
    · rcases List.mem_cons.mp hv with rfl | hv
      · exact ⟨fun ht => (nomatch ht), fun _ => rfl⟩
      · cases hv)

/-- C6: a reserve or release request that ends in any business-logic
error performs no slot mutation: the database after the handler equals
the database before it. -/
theorem business_failure_no_mutation :
    (∀ db u p vagaId e, (reservar db u p vagaId).1 = .err e →
      (reservar db u p vagaId).2 = db) ∧
    (∀ db u vagaId e, (liberar db u vagaId).1 = .err e →
      (liberar db u vagaId).2 = db) :=
  ⟨fun _ _ _ _ _ h => reservar_err_snd h, fun _ _ _ _ h => liberar_err_snd h⟩

/-- Witness for C6: a reserve failing with VehicleNotFound leaves the
empty deployment unchanged. -/
theorem business_failure_no_mutation_witness :
    (reservar (initDB []) 1 "AAA1111" 1).2 = initDB [] :=
  business_failure_no_mutation.1 (initDB []) 1 "AAA1111" 1 .vehicleNotFound (by decide)

/-- C7: provisioning is idempotent: it is a no-op whenever any slot
already exists, and running it twice equals running it once. -/
theorem provisioning_idempotent :
    (∀ db, createInitialVagas (createInitialVagas db) = createInitialVagas db) ∧
    (∀ db, db.vagas ≠ [] → createInitialVagas db = db) := by
  constructor
  · intro db
    unfold createInitialVagas
    by_cases h : (db.vagas.length == 0) = true
    · rw [if_pos h, if_neg (show ¬((initialVagas.length == 0) = true) by decide)]
    · rw [if_neg h, if_neg h]
  · intro db h
    unfold createInitialVagas
    rw [if_neg (by simp [List.length_eq_zero, h])]

/-- Witness for C7: provisioning over a table holding one occupied slot
changes nothing. -/
theorem provisioning_idempotent_witness :
    createInitialVagas ⟨[⟨1, "Vaga 1", true, some "AAA1111"⟩], []⟩
      = ⟨[⟨1, "Vaga 1", true, some "AAA1111"⟩], []⟩ :=
  provisioning_idempotent.2 _ (by decide)

/-- C8: provisioning a fresh deployment creates exactly 15 slots, all
free with no bound plate, named sequentially "Vaga 1" through
"Vaga 15". -/
theorem provisioning_fresh (vs : List Veiculo) :
    ((createInitialVagas (initDB vs)).vagas.length = 15) ∧
    (∀ v ∈ (createInitialVagas (initDB vs)).vagas, v.ocupada = false ∧ v.placa = none) ∧
    ((createInitialVagas (initDB vs)).vagas.map Vaga.nome =
      ["Vaga 1", "Vaga 2", "Vaga 3", "Vaga 4", "Vaga 5", "Vaga 6", "Vaga 7", "Vaga 8",
       "Vaga 9", "Vaga 10", "Vaga 11", "Vaga 12", "Vaga 13", "Vaga 14", "Vaga 15"]) :=
  ⟨rfl, show ∀ v ∈ initialVagas, v.ocupada = false ∧ v.placa = none by decide, rfl⟩

/-- Witness for C8: on an empty deployment the provisioned table has 15
rows, and its third row is the free, plateless "Vaga 3". -/
theorem provisioning_fresh_witness :
    (createInitialVagas (initDB [])).vagas.length = 15 ∧
    ((⟨3, "Vaga 3", false, none⟩ : Vaga).ocupada = false ∧
     (⟨3, "Vaga 3", false, none⟩ : Vaga).placa = none) :=
  ⟨(provisioning_fresh []).1, (provisioning_fresh []).2.1 ⟨3, "Vaga 3", false, none⟩ (by decide)⟩


/-- C4 (refuted): under the read-read-write-write interleaving of two
concurrent reserves of the same free slot with different plates, BOTH
requests return success — the final `save()` is an unconditional
update keyed only on the row id and re-checks nothing, so the claimed
atomic conditional transition does not exist and the second write
silently overwrites the first (lost update). -/
theorem race_both_reserves_succeed :
    reservarRace ⟨[⟨1, "Vaga 1", false, none⟩], [⟨"AAA1111", 1⟩, ⟨"BBB2222", 2⟩]⟩
        1 "AAA1111" 2 "BBB2222" 1
      = (.ok ⟨1, "Vaga 1", true, some "AAA1111"⟩,
         .ok ⟨1, "Vaga 1", true, some "BBB2222"⟩,
         ⟨[⟨1, "Vaga 1", true, some "BBB2222"⟩], [⟨"AAA1111", 1⟩, ⟨"BBB2222", 2⟩]⟩) := by
  decide

/-- C5: re-reserving a slot that is already occupied by the caller's
own plate is rejected with AlreadyReservedBySelf — not treated as a
no-op success — and the database is unchanged, in any reachable state. -/
theorem re_reserve_rejected (vs : List Veiculo) (ops : List Op) (u : Nat) (p : String)
    (vagaId : Nat) (va : Vaga)
    (h7 : (normPlaca p).length = 7) (hu : u ≠ 0)
    (hown : ∃ ve ∈ (run (initDB vs) ops).veiculos, ve.placa = normPlaca p ∧ ve.user_id = u)
    (hva : va ∈ (run (initDB vs) ops).vagas) (hid : va.id = vagaId)
    (hocc : va.ocupada = true) (hpl : va.placa = some (normPlaca p)) :
    reservar (run (initDB vs) ops) u p vagaId
      = (.err .alreadyReservedBySelf, run (initDB vs) ops) := by
  obtain ⟨hnd, hsl, hpu⟩ := Inv_run ops (Inv_initDB vs)
  have hpk : findVagaByPk (run (initDB vs) ops) vagaId = some va :=
    hid ▸ findVagaByPk_eq_of_mem hnd hva
  have hnoconf :
      findOutraVagaComMesmaPlaca (run (initDB vs) ops) (normPlaca p) vagaId = none := by
    rw [findOutra_eq_none_iff]
    intro v hv hvp hvo
    exact (hpu v hv va hva hvo hocc (normPlaca p) hvp hpl).trans hid
  exact reservar_eq_alreadyReservedBySelf h7 hu
    (findVeiculoDoUsuario_isSome_iff.mpr hown) hnoconf hpk hocc hpl

/-- Witness for C5: after provisioning and one reserve, reserving the
same slot again with the same plate is rejected. -/
theorem re_reserve_rejected_witness :
    reservar (run (initDB [⟨"AAA1111", 1⟩]) [.provision, .reserve 1 "AAA1111" 3]) 1 "AAA1111" 3
      = (.err .alreadyReservedBySelf,
         run (initDB [⟨"AAA1111", 1⟩]) [.provision, .reserve 1 "AAA1111" 3]) :=
  re_reserve_rejected [⟨"AAA1111", 1⟩] [.provision, .reserve 1 "AAA1111" 3] 1 "AAA1111" 3
    ⟨3, "Vaga 3", true, some "AAA1111"⟩ (by decide) (by decide) (by decide) (by decide)
    rfl rfl (by decide)

/-- C9: a release of an occupied slot whose bound plate is not owned by
the caller fails with NotAuthorizedToRelease and leaves the slot — and
the whole database — unchanged, in any reachable state. -/
theorem release_by_non_owner_rejected (vs : List Veiculo) (ops : List Op) (u : Nat)
    (vagaId : Nat) (va : Vaga) (q : String)
    (hva : va ∈ (run (initDB vs) ops).vagas) (hid : va.id = vagaId)
    (hocc : va.ocupada = true) (hpl : va.placa = some q)
    (hnotown : ¬ ∃ ve ∈ (run (initDB vs) ops).veiculos, ve.placa = q ∧ ve.user_id = u) :
    liberar (run (initDB vs) ops) u vagaId
      = (.err .notAuthorizedToRelease, run (initDB vs) ops) := by
  obtain ⟨hnd, hsl, _⟩ := Inv_run ops (Inv_initDB vs)
  have hq : q ≠ "" := by
    obtain ⟨p', hp', hne⟩ := (hsl va hva).1 hocc
    have : q = p' := by
      rw [hpl] at hp'
      exact Option.some.inj hp'
    exact this ▸ hne
  exact liberar_eq_notAuthorized (hid ▸ findVagaByPk_eq_of_mem hnd hva) hocc hpl hq
    (findVeiculoDoUsuario_eq_none_of_not_exists hnotown)

/-- Witness for C9: user 2 cannot release the slot reserved for user
1's vehicle. -/
theorem release_by_non_owner_rejected_witness :
    liberar (run (initDB [⟨"AAA1111", 1⟩]) [.provision, .reserve 1 "AAA1111" 3]) 2 3
      = (.err .notAuthorizedToRelease,
         run (initDB [⟨"AAA1111", 1⟩]) [.provision, .reserve 1 "AAA1111" 3]) :=
  release_by_non_owner_rejected [⟨"AAA1111", 1⟩] [.provision, .reserve 1 "AAA1111" 3] 2 3
    ⟨3, "Vaga 3", true, some "AAA1111"⟩ "AAA1111" (by decide) rfl rfl rfl (by decide)

/-- C10: on a slot that is occupied but carries no bound plate, the
release handler skips the ownership lookup entirely and succeeds for
every caller, leaving the slot free with no plate. -/
theorem release_unbound_occupied_succeeds (db : DB) (u : Nat) (vagaId : Nat) (va : Vaga)
    (hnd : NodupIds db) (hva : va ∈ db.vagas) (hid : va.id = vagaId)
    (hocc : va.ocupada = true) (hpl : va.placa = none) :
    liberar db u vagaId
      = (.ok { va with ocupada := false, placa := none }, setVagaLivre db vagaId) ∧
    ∀ w ∈ (liberar db u vagaId).2.vagas, w.id = vagaId →
      w.ocupada = false ∧ w.placa = none := by
  have h1 := liberar_eq_success_noplate (u := u)
    (hid ▸ findVagaByPk_eq_of_mem hnd hva) hocc hpl
  refine ⟨h1, ?_⟩
  rw [h1]
  intro w hw hwid
  obtain ⟨v, hv, rfl⟩ := List.mem_map.mp hw
  rw [livreUpd_id] at hwid
  unfold livreUpd
  rw [if_pos (beq_iff_eq.mpr hwid)]
  exact ⟨rfl, rfl⟩

/-- Witness for C10: a caller with no vehicles releases an occupied,
plateless slot. -/
theorem release_unbound_occupied_succeeds_witness :
    liberar ⟨[⟨2, "Vaga 2", true, none⟩], []⟩ 42 2
      = (.ok ⟨2, "Vaga 2", false, none⟩,
         setVagaLivre ⟨[⟨2, "Vaga 2", true, none⟩], []⟩ 2) :=
  (release_unbound_occupied_succeeds ⟨[⟨2, "Vaga 2", true, none⟩], []⟩ 42 2
    ⟨2, "Vaga 2", true, none⟩ (by unfold NodupIds; decide) (by decide) rfl rfl rfl).1

end ChargeCar
